import Mathlib

/-!
Verification of the py-micro-template-service repository against its
natural-language specification.

The development shallowly embeds the Python sources:
  - `src/py_micro/service/config/server_config.py` and `logging_config.py`
    (pydantic `BaseSettings` classes) as explicit construction functions over
    optional inputs and an environment association list;
  - `src/py_micro/service/validators/common.py` (`validate_less_than`);
  - the two handler variants `src/py_micro/service/template_service.py`
    (repository backed) and `src/py_micro/service/services/template_service.py`
    (plain) as functions from request and repository state to an outcome;
  - `src/py_micro/service/main.py` (`GrpcServer`) as explicit state passing
    over the server state (the `_server` reference and the `_shutdown_event`
    latch) together with a record of the observable transport effects
    (servers created, ports bound, drain requests), plus a labelled
    transition system for the interleaving of the blocking `start()`
    coroutine with `stop()` / `handle_signal()` calls.

Python exceptions are modelled explicitly: `context.abort` becomes an
`abort` outcome, an exception escaping a handler becomes a `raised` outcome,
and the fallible repository `create` call takes an `Option String` error.
-/

namespace PyMicro

/-! ## Configuration (`config/server_config.py`, `config/logging_config.py`) -/

/-- Keyword arguments to the pydantic `ServerConfig` constructor; `none`
means the field is absent and its declared default applies. -/
structure ServerConfigArgs where
  host : Option String := none
  port : Option Int := none
  max_workers : Option Int := none
  grace_period : Option Int := none
  deriving DecidableEq, Repr

/-- The validated `ServerConfig` settings object. -/
structure ServerConfig where
  host : String
  port : Int
  max_workers : Int
  grace_period : Int
  deriving DecidableEq, Repr

/-- Pydantic construction of `ServerConfig` from already-typed inputs.
Faithful to the source fields: `host` defaults to "0.0.0.0", `port` to
50051, `max_workers` to 10 with the single declared constraint `gt=0`,
`grace_period` to 30.  The source declares no constraint on `port`. -/
def ServerConfig.build (args : ServerConfigArgs) : Except String ServerConfig :=
  let mw := args.max_workers.getD 10
  if 0 < mw then
    Except.ok
      { host := args.host.getD "0.0.0.0"
        port := args.port.getD 50051
        max_workers := mw
        grace_period := args.grace_period.getD 30 }
  else
    Except.error "Input should be greater than 0"

/-- Environment: an association list from variable names to raw values. -/
abbrev Env := List (String × String)

/-- The `env_prefix` of `ServerConfig.model_config` in the source. -/
def ServerConfig.envGroup : String := "SERVER_"

/-- The `env_prefix` of `LoggingConfig.model_config` in the source. -/
def LoggingConfig.envGroup : String := "LOGGING_"

/-- Accumulating decimal digit parser over a character list. -/
def parseDigits : List Char → Nat → Option Nat
  | [], acc => some acc
  | c :: cs, acc =>
    if c.isDigit then parseDigits cs (acc * 10 + (c.toNat - 48)) else none

/-- Models pydantic integer coercion of a raw environment string: an
optional minus sign followed by at least one decimal digit. -/
def parseIntStr (s : String) : Option Int :=
  match s.data with
  | [] => none
  | '-' :: [] => none
  | '-' :: c :: cs => (parseDigits (c :: cs) 0).map (fun n => -(n : Int))
  | cs => (parseDigits cs 0).map (fun n => (n : Int))

/-- Reads one integer-typed settings field from the environment: absent
means the default, an unparsable value is a pydantic validation error. -/
def readIntEnv (env : Env) (key : String) (dflt : Int) : Except String Int :=
  match List.lookup key env with
  | none => Except.ok dflt
  | some v =>
    match parseIntStr v with
    | some n => Except.ok n
    | none => Except.error "Input should be a valid integer"

/-- Pydantic `ServerConfig()` construction from environment variables under
the `SERVER_` group, with the declared defaults and the `gt=0` constraint
on `max_workers`. -/
def ServerConfig.fromEnv (env : Env) : Except String ServerConfig := do
  let host := (List.lookup (ServerConfig.envGroup ++ "HOST") env).getD "0.0.0.0"
  let port ← readIntEnv env (ServerConfig.envGroup ++ "PORT") 50051
  let mw ← readIntEnv env (ServerConfig.envGroup ++ "MAX_WORKERS") 10
  let gp ← readIntEnv env (ServerConfig.envGroup ++ "GRACE_PERIOD") 30
  if 0 < mw then
    Except.ok { host := host, port := port, max_workers := mw, grace_period := gp }
  else
    Except.error "Input should be greater than 0"

/-- The `LoggingConfig` settings object: both fields are unconstrained
strings in the source. -/
structure LoggingConfig where
  level : String
  format : String
  deriving DecidableEq, Repr

/-- Pydantic `LoggingConfig()` construction from environment variables
under the `LOGGING_` group; no field carries a constraint, so construction
is total. -/
def LoggingConfig.fromEnv (env : Env) : LoggingConfig :=
  { level := (List.lookup (LoggingConfig.envGroup ++ "LEVEL") env).getD "INFO"
    format := (List.lookup (LoggingConfig.envGroup ++ "FORMAT") env).getD "json" }

/-! ## Protobuf messages and handler outcomes -/

/-- The `HealthCheckRequest` protobuf message (empty). -/
structure HealthCheckRequest where
  deriving DecidableEq, Repr

/-- The `HealthCheckResponse.Status` protobuf enum values used by the code. -/
inductive HCStatus
  | SERVING
  | NOT_SERVING
  deriving DecidableEq, Repr

/-- The `HealthCheckResponse` protobuf message. -/
structure HealthCheckResponse where
  status : HCStatus
  message : String
  deriving DecidableEq, Repr

/-- The gRPC status codes mentioned by the embedded code. -/
inductive StatusCode
  | RESOURCE_EXHAUSTED
  | INVALID_ARGUMENT
  deriving DecidableEq, Repr

/-- Outcome of one handler invocation as seen at the transport boundary:
a returned typed response, a `context.abort` with a status code, or an
exception escaping the handler uncaught. -/
inductive HandlerOutcome
  | response (resp : HealthCheckResponse)
  | abort (code : StatusCode) (details : String)
  | raised (err : String)
  deriving DecidableEq, Repr

/-! ## Validators (`validators/common.py`) -/

/-- Embeds `validate_less_than`: aborts the call (returns the abort payload)
when `n >= less_than`, otherwise falls through (`none`). -/
def validate_less_than (n : Int) (less_than : Int) (code : StatusCode)
    (message : String) : Option (StatusCode × String) :=
  if n ≥ less_than then some (code, message) else none

/-! ## Repository-backed handler (`template_service.py`) -/

/-- One stored health-check record (`models/health_check.py`); the
timestamp is abstracted to a natural number. -/
structure HealthCheckRecord where
  timestamp : Nat
  deriving DecidableEq, Repr

/-- The state of the health-check model repository: the list of stored
records.  `count {}` is the number of records. -/
abbrev HealthCheckRepo := List HealthCheckRecord

/-- The repository `count({})` call. -/
def HealthCheckRepo.count (repo : HealthCheckRepo) : Nat := repo.length

/-- The abort message used by the repository-backed handler. -/
def maxHealthChecksMsg : String :=
  "You\x27ve exceeded the maximum number of health checks."

/-- The repository-backed `TemplateService.HealthCheck`.  The call first
invokes the repository `count({})` and the validator, both of which sit
outside the try/except in the source, so an exception raised by `count`
(modelled by `countErr`) propagates out of the handler uncaught; when the
count succeeds its value is the number of stored records, and the call
aborts with `RESOURCE_EXHAUSTED` when that count is not below 3.
Otherwise it creates a record inside the try block, whose except branch
converts an exception raised there (modelled by `createErr`) into a
`NOT_SERVING` response.  `now` is the `datetime.now()` value.  Returns the
outcome and the new repository state. -/
def TemplateServiceRepo.HealthCheck (_request : HealthCheckRequest)
    (repo : HealthCheckRepo) (now : Nat) (countErr : Option String)
    (createErr : Option String) : HandlerOutcome × HealthCheckRepo :=
  match countErr with
  | some e => (HandlerOutcome.raised e, repo)
  | none =>
    let existing_checks : Int := repo.count
    match validate_less_than existing_checks 3 StatusCode.RESOURCE_EXHAUSTED
        maxHealthChecksMsg with
    | some ab => (HandlerOutcome.abort ab.1 ab.2, repo)
    | none =>
      match createErr with
      | some e =>
        (HandlerOutcome.response
          { status := HCStatus.NOT_SERVING, message := "Service is unhealthy: " ++ e },
         repo)
      | none =>
        (HandlerOutcome.response
          { status := HCStatus.SERVING, message := "Service is healthy" },
         repo ++ [{ timestamp := now }])

/-! ## Plain handler (`services/template_service.py`) -/

/-- The plain `TemplateService.HealthCheck`: its try block only logs and
builds the response, so it unconditionally returns the healthy reply. -/
def TemplateServicePlain.HealthCheck (_request : HealthCheckRequest) :
    HandlerOutcome :=
  HandlerOutcome.response
    { status := HCStatus.SERVING, message := "Service is healthy" }

/-! ## Server lifecycle (`main.py`, class `GrpcServer`) -/

/-- Observable transport effects of a `GrpcServer` run: how many
`grpc.aio.server` objects were created, which addresses were bound (by
server id), and each `server.stop(grace)` drain request (server id and
grace period). -/
structure WorldEffects where
  servers_created : Nat := 0
  bound : List (Nat × String) := []
  drains : List (Nat × Int) := []
  deriving DecidableEq, Repr

/-- The mutable state of a `GrpcServer` instance as set by `__init__`:
`_server = None` and a cleared `_shutdown_event`.  Transport servers are
identified by the order of their creation. -/
structure GrpcServerState where
  server : Option Nat := none
  shutdown_event : Bool := false
  deriving DecidableEq, Repr

/-- The listen address built by `start()`. -/
def listen_addr (cfg : ServerConfig) : String :=
  cfg.host ++ ":" ++ toString cfg.port

/-- How the non-suspending phase of `start()` ends: the early `return`
taken when server creation yielded `None`, or falling through to the wait
on the shutdown event. -/
inductive StartResult
  | earlyReturn
  | servingWait
  deriving DecidableEq, Repr

/-- The phase of `start()` before `await self._shutdown_event.wait()`:
assigns `self._server` to the freshly created transport server (or to
`None` when creation failed, in which case it returns early), registers
the servicer and reflection, binds the listen address, and starts the
transport.  No state check guards re-entry. -/
def GrpcServer.startPhaseA (cfg : ServerConfig) (createOk : Bool)
    (s : GrpcServerState) (w : WorldEffects) :
    StartResult × GrpcServerState × WorldEffects :=
  if createOk then
    let sid := w.servers_created
    (StartResult.servingWait,
     { s with server := some sid },
     { w with
        servers_created := w.servers_created + 1
        bound := w.bound ++ [(sid, listen_addr cfg)] })
  else
    (StartResult.earlyReturn, { s with server := none }, w)

/-- The `stop()` method: returns immediately when `self._server` is falsy;
otherwise sets the shutdown event and awaits `self._server.stop(grace)`,
recorded as one more drain request.  The server reference is never
cleared. -/
def GrpcServer.stop (cfg : ServerConfig) (s : GrpcServerState)
    (w : WorldEffects) : GrpcServerState × WorldEffects :=
  match s.server with
  | none => (s, w)
  | some sid =>
    ({ s with shutdown_event := true },
     { w with drains := w.drains ++ [(sid, cfg.grace_period)] })

/-- The `handle_signal` method: logs and schedules `self.stop()`; its
effect, once the scheduled task runs, is exactly a `stop()` call. -/
def GrpcServer.handle_signal (cfg : ServerConfig) (_signum : Int)
    (s : GrpcServerState) (w : WorldEffects) : GrpcServerState × WorldEffects :=
  GrpcServer.stop cfg s w

/-- Iterates `stop()` a given number of times. -/
def GrpcServer.stopN (cfg : ServerConfig) : Nat → GrpcServerState →
    WorldEffects → GrpcServerState × WorldEffects
  | 0, s, w => (s, w)
  | Nat.succ m, s, w =>
    let sw := GrpcServer.stop cfg s w
    GrpcServer.stopN cfg m sw.1 sw.2

/-- Position of the `start()` coroutine: before the bind phase, parked on
`await self._shutdown_event.wait()`, or returned. -/
inductive Phase
  | binding
  | waiting
  | done
  deriving DecidableEq, Repr

/-- A whole-system configuration: where `start()` is parked, the instance
state, and the transport effects so far. -/
structure Sys where
  phase : Phase
  st : GrpcServerState
  w : WorldEffects
  deriving DecidableEq, Repr

/-- Actions of the labelled transition system: a scheduler step of the
`start()` coroutine, an explicit `stop()` call from another task, or a
delivered termination signal (whose scheduled task performs the stop). -/
inductive Act
  | startStep
  | stopCall
  | signalCall
  deriving DecidableEq, Repr

/-- Small-step semantics of one `GrpcServer` instance: `start()` advances
through its bind phase and can pass `await self._shutdown_event.wait()`
only when the event is set, while `stop()` and `handle_signal()` may be
interleaved from any phase. -/
inductive SysStep (cfg : ServerConfig) : Sys → Act → Sys → Prop
  | bindOk {s w} :
      SysStep cfg ⟨Phase.binding, s, w⟩ Act.startStep
        ⟨Phase.waiting, (GrpcServer.startPhaseA cfg true s w).2.1,
          (GrpcServer.startPhaseA cfg true s w).2.2⟩
  | bindFail {s w} :
      SysStep cfg ⟨Phase.binding, s, w⟩ Act.startStep
        ⟨Phase.done, (GrpcServer.startPhaseA cfg false s w).2.1,
          (GrpcServer.startPhaseA cfg false s w).2.2⟩
  | wake {s w} :
      s.shutdown_event = true →
      SysStep cfg ⟨Phase.waiting, s, w⟩ Act.startStep ⟨Phase.done, s, w⟩
  | stopCall {p s w} :
      SysStep cfg ⟨p, s, w⟩ Act.stopCall
        ⟨p, (GrpcServer.stop cfg s w).1, (GrpcServer.stop cfg s w).2⟩
  | signalCall {p s w} (signum : Int) :
      SysStep cfg ⟨p, s, w⟩ Act.signalCall
        ⟨p, (GrpcServer.handle_signal cfg signum s w).1,
          (GrpcServer.handle_signal cfg signum s w).2⟩

/-- Reachability along a finite trace of actions. -/
inductive Reaches (cfg : ServerConfig) : Sys → List Act → Sys → Prop
  | refl (s : Sys) : Reaches cfg s [] s
  | step {s s₂ s₃ : Sys} {a : Act} {as : List Act} :
      SysStep cfg s a s₂ → Reaches cfg s₂ as s₃ → Reaches cfg s (a :: as) s₃

/-! ## Concrete fixtures used by counterexamples and witnesses -/

/-- The default server configuration. -/
def cfg0 : ServerConfig :=
  { host := "0.0.0.0", port := 50051, max_workers := 10, grace_period := 30 }

/-- Instance state once the server has begun stopping: the transport server
exists and the shutdown event is already set. -/
def stStopping : GrpcServerState := { server := some 0, shutdown_event := true }

/-- Transport effects once the server has begun stopping: one server
created and bound, one drain request already issued. -/
def wStopping : WorldEffects :=
  { servers_created := 1, bound := [(0, "0.0.0.0:50051")], drains := [(0, 30)] }

/-- Instance state of a serving server that has not been asked to stop. -/
def stServing : GrpcServerState := { server := some 0 }

/-- Transport effects of a serving server that has not been asked to stop. -/
def wServing : WorldEffects :=
  { servers_created := 1, bound := [(0, "0.0.0.0:50051")] }

/-- The system configuration reached by the concrete trace used to witness
the blocking theorem: `start()` has returned after a `stop()` call. -/
def sysEnd0 : Sys :=
  ⟨Phase.done, (GrpcServer.stop cfg0 stServing wServing).1,
    (GrpcServer.stop cfg0 stServing wServing).2⟩

/-- A concrete two-step trace: a `stop()` call followed by the scheduler
resuming `start()` past the event wait. -/
lemma reaches_stop_then_wake :
    Reaches cfg0 ⟨Phase.waiting, stServing, wServing⟩
      [Act.stopCall, Act.startStep] sysEnd0 :=
  Reaches.step SysStep.stopCall
    (Reaches.step (SysStep.wake (by decide)) (Reaches.refl _))

/-- A repository holding three health-check records. -/
def repo3 : HealthCheckRepo :=
  [{ timestamp := 1 }, { timestamp := 2 }, { timestamp := 3 }]

/-! ## Claims -/

/-- C1 (counterexample): on a server that has already begun stopping (the
shutdown event is set and one drain request was issued), a further
`stop()` call is not a no-op and runs the transport drain a second time,
so the drain does not run at most once. -/
theorem stop_not_idempotent_ctr :
    ¬ ((GrpcServer.stop cfg0 stStopping wStopping).2.drains.length ≤ 1 ∧
       GrpcServer.stop cfg0 stStopping wStopping = (stStopping, wStopping)) := by
  decide

/-- C1 (amended): once the transport server exists, `stop()` is not
idempotent: every call sets the shutdown event and issues one more drain
request with the configured grace period, so a sequence of n calls to
`stop()` runs the drain exactly n times; the server reference is never
cleared, so later calls are never no-ops. -/
theorem stop_drains_once_per_call (cfg : ServerConfig) (n : Nat)
    (s : GrpcServerState) (w : WorldEffects) (sid : Nat)
    (hs : s.server = some sid) :
    (GrpcServer.stopN cfg n s w).2.drains.length = w.drains.length + n ∧
    (GrpcServer.stopN cfg n s w).1.server = some sid := by
  induction n generalizing s w hs with
  | zero => exact ⟨rfl, hs⟩
  | succ m ih =>
    have hstep : GrpcServer.stopN cfg (m + 1) s w =
        GrpcServer.stopN cfg m ({ s with shutdown_event := true })
          ({ w with drains := w.drains ++ [(sid, cfg.grace_period)] }) := by
      simp [GrpcServer.stopN, GrpcServer.stop, hs]
    rw [hstep]
    obtain ⟨h1, h2⟩ := ih ({ s with shutdown_event := true })
      ({ w with drains := w.drains ++ [(sid, cfg.grace_period)] }) hs
    refine ⟨?_, h2⟩
    rw [h1]
    simp
    omega

/-- C1 (witness): two `stop()` calls on a serving server issue two drain
requests and keep the server reference. -/
theorem stop_drains_once_per_call_witness :
    (GrpcServer.stopN cfg0 2 { server := some 0 } {}).2.drains.length = 0 + 2 ∧
    (GrpcServer.stopN cfg0 2 { server := some 0 } {}).1.server = some 0 :=
  stop_drains_once_per_call cfg0 2 { server := some 0 } {} 0 rfl

/-- C2 (counterexample): calling `start()` a second time on the same
instance does not fail: the non-suspending phase again reaches the wait on
the shutdown event, creates a second transport server, overwrites the
server reference (0 becomes 1) and binds the address a second time; no
`IllegalStateError` exists anywhere in the code. -/
theorem start_twice_no_error_ctr :
    (GrpcServer.startPhaseA cfg0 true {} {}).1 = StartResult.servingWait ∧
    (GrpcServer.startPhaseA cfg0 true {} {}).2.1.server = some 0 ∧
    (GrpcServer.startPhaseA cfg0 true
        (GrpcServer.startPhaseA cfg0 true {} {}).2.1
        (GrpcServer.startPhaseA cfg0 true {} {}).2.2).1 =
      StartResult.servingWait ∧
    (GrpcServer.startPhaseA cfg0 true
        (GrpcServer.startPhaseA cfg0 true {} {}).2.1
        (GrpcServer.startPhaseA cfg0 true {} {}).2.2).2.1.server = some 1 ∧
    (GrpcServer.startPhaseA cfg0 true
        (GrpcServer.startPhaseA cfg0 true {} {}).2.1
        (GrpcServer.startPhaseA cfg0 true {} {}).2.2).2.2.bound =
      [(0, "0.0.0.0:50051"), (1, "0.0.0.0:50051")] := by
  refine ⟨rfl, rfl, rfl, rfl, ?_⟩
  rfl

/-- C2 (amended): `start()` performs no lifecycle-state check and has no
failure path for re-entry: from any instance state, its non-suspending
phase proceeds to the event wait, installs a freshly created transport
server over whatever reference was there, and appends one more bind of the
configured listen address. -/
theorem start_has_no_state_check (cfg : ServerConfig) (s : GrpcServerState)
    (w : WorldEffects) :
    (GrpcServer.startPhaseA cfg true s w).1 = StartResult.servingWait ∧
    (GrpcServer.startPhaseA cfg true s w).2.1.server = some w.servers_created ∧
    (GrpcServer.startPhaseA cfg true s w).2.2.servers_created =
      w.servers_created + 1 ∧
    (GrpcServer.startPhaseA cfg true s w).2.2.bound =
      w.bound ++ [(w.servers_created, listen_addr cfg)] := by
  simp [GrpcServer.startPhaseA]

/-- C3 (confirmed): with the shutdown event clear, every trace that takes
`start()` from its parked position at the event wait to returning contains
a `stop()` call or a delivered signal, because the resume step requires
the event to be set and only those calls set it; conversely, after a
`stop()` call on a server with a transport server present, the resume step
past the wait is enabled. -/
theorem start_blocks_until_stop_sets_event (cfg : ServerConfig)
    (st : GrpcServerState) (w : WorldEffects) (trace : List Act) (sys2 : Sys)
    (hev : st.shutdown_event = false)
    (hr : Reaches cfg ⟨Phase.waiting, st, w⟩ trace sys2)
    (hdone : sys2.phase = Phase.done) :
    (Act.stopCall ∈ trace ∨ Act.signalCall ∈ trace) ∧
    (∀ sid, st.server = some sid →
      SysStep cfg
        ⟨Phase.waiting, (GrpcServer.stop cfg st w).1, (GrpcServer.stop cfg st w).2⟩
        Act.startStep
        ⟨Phase.done, (GrpcServer.stop cfg st w).1, (GrpcServer.stop cfg st w).2⟩) := by
  constructor
  · cases hr with
    | refl => simp at hdone
    | step hstep hrest =>
      cases hstep with
      | wake hw => rw [hev] at hw; exact absurd hw (by decide)
      | stopCall => exact Or.inl (List.mem_cons_self _ _)
      | signalCall signum => exact Or.inr (List.mem_cons_self _ _)
  · intro sid hsid
    have hset : (GrpcServer.stop cfg st w).1.shutdown_event = true := by
      simp [GrpcServer.stop, hsid]
    exact SysStep.wake hset

/-- C3 (witness): on the concrete trace stop-then-resume from a serving
server, a stop call occurs in the trace, and the resume step is enabled
after the stop. -/
theorem start_blocks_until_stop_sets_event_witness :
    (Act.stopCall ∈ ([Act.stopCall, Act.startStep] : List Act) ∨
      Act.signalCall ∈ ([Act.stopCall, Act.startStep] : List Act)) ∧
    SysStep cfg0
      ⟨Phase.waiting, (GrpcServer.stop cfg0 stServing wServing).1,
        (GrpcServer.stop cfg0 stServing wServing).2⟩
      Act.startStep
      ⟨Phase.done, (GrpcServer.stop cfg0 stServing wServing).1,
        (GrpcServer.stop cfg0 stServing wServing).2⟩ :=
  ⟨(start_blocks_until_stop_sets_event cfg0 stServing wServing
      [Act.stopCall, Act.startStep] sysEnd0 rfl reaches_stop_then_wake rfl).1,
   (start_blocks_until_stop_sets_event cfg0 stServing wServing
      [Act.stopCall, Act.startStep] sysEnd0 rfl reaches_stop_then_wake rfl).2
     0 rfl⟩

/-- C4 (counterexample): ports 0 and 70000 lie outside 1 to 65535, yet
construction succeeds and stores them; the source declares no constraint
on the port field. -/
theorem port_outside_range_accepted_ctr :
    ServerConfig.build { port := some 0 } =
      Except.ok { host := "0.0.0.0", port := 0, max_workers := 10, grace_period := 30 } ∧
    ServerConfig.build { port := some 70000 } =
      Except.ok { host := "0.0.0.0", port := 70000, max_workers := 10, grace_period := 30 } :=
  ⟨rfl, rfl⟩

/-- C4 (amended): construction does not range-check the port: every
integer port value, including values outside 1 to 65535, is accepted at
construction and stored unchanged; only a value that fails integer type
coercion (for example a non-numeric environment string) is a
construction-time failure. -/
theorem port_not_validated_at_construction (p : Int) :
    ServerConfig.build { port := some p } =
      Except.ok { host := "0.0.0.0", port := p, max_workers := 10, grace_period := 30 } ∧
    ServerConfig.fromEnv [(ServerConfig.envGroup ++ "PORT", "invalid")] =
      Except.error "Input should be a valid integer" := by
  constructor
  · simp [ServerConfig.build]
  · rfl

/-- C5 (confirmed): construction with a non-positive `max_workers` fails
at construction time, and construction with any positive `max_workers`
succeeds and stores that value. -/
theorem max_workers_validated_at_construction (m : Int) :
    (m ≤ 0 → ∀ c : ServerConfig,
      ServerConfig.build { max_workers := some m } ≠ Except.ok c) ∧
    (0 < m → ServerConfig.build { max_workers := some m } =
      Except.ok { host := "0.0.0.0", port := 50051, max_workers := m,
                  grace_period := 30 }) := by
  constructor
  · intro hm c
    simp [ServerConfig.build, not_lt.mpr hm]
  · intro hm
    simp [ServerConfig.build, hm]

/-- C5 (witness): zero workers is rejected and seven workers is accepted. -/
theorem max_workers_validated_at_construction_witness :
    (∀ c : ServerConfig,
      ServerConfig.build { max_workers := some 0 } ≠ Except.ok c) ∧
    ServerConfig.build { max_workers := some 7 } =
      Except.ok { host := "0.0.0.0", port := 50051, max_workers := 7,
                  grace_period := 30 } :=
  ⟨(max_workers_validated_at_construction 0).1 (by decide),
   (max_workers_validated_at_construction 7).2 (by decide)⟩

/-- C6 (confirmed): on executions where the repository count call
succeeds, the repository-backed `HealthCheck` aborts with
`RESOURCE_EXHAUSTED` and creates no record whenever at least 3 records are
stored (whatever the repository `create` would have done), and with fewer
than 3 records it appends exactly one new record and returns the
`SERVING` response. -/
theorem health_check_fails_after_three (r : HealthCheckRequest)
    (repo : HealthCheckRepo) (now : Nat) (createErr : Option String) :
    (3 ≤ repo.count →
      TemplateServiceRepo.HealthCheck r repo now none createErr =
        (HandlerOutcome.abort StatusCode.RESOURCE_EXHAUSTED maxHealthChecksMsg,
         repo)) ∧
    (repo.count < 3 →
      TemplateServiceRepo.HealthCheck r repo now none none =
        (HandlerOutcome.response
          { status := HCStatus.SERVING, message := "Service is healthy" },
         repo ++ [{ timestamp := now }])) := by
  constructor
  · intro h
    have h3 : ((repo.count : Int) ≥ 3) := by omega
    simp [TemplateServiceRepo.HealthCheck, validate_less_than, h3]
  · intro h
    have h3 : ¬ ((repo.count : Int) ≥ 3) := by omega
    simp [TemplateServiceRepo.HealthCheck, validate_less_than, h3]

/-- C6 (witness): with three stored records the call aborts and the
repository is unchanged; on an empty repository it creates the record and
reports healthy. -/
theorem health_check_fails_after_three_witness :
    TemplateServiceRepo.HealthCheck {} repo3 4 none none =
      (HandlerOutcome.abort StatusCode.RESOURCE_EXHAUSTED maxHealthChecksMsg,
       repo3) ∧
    TemplateServiceRepo.HealthCheck {} [] 0 none none =
      (HandlerOutcome.response
        { status := HCStatus.SERVING, message := "Service is healthy" },
       [{ timestamp := 0 }]) :=
  ⟨(health_check_fails_after_three {} repo3 4 none).1 (by decide),
   (health_check_fails_after_three {} [] 0 none).2 (by decide)⟩

/-- C7 (counterexample): an exception raised by the repository count call
on an otherwise empty repository propagates out of the handler uncaught —
the outcome is neither a typed response nor an abort with a status code,
because `count({})` and the validator sit outside the try/except in the
source. -/
theorem handler_count_exception_propagates_ctr :
    (TemplateServiceRepo.HealthCheck {} [] 0 (some "db down") none).1 =
      HandlerOutcome.raised "db down" ∧
    ¬ ((∃ resp, (TemplateServiceRepo.HealthCheck {} [] 0 (some "db down") none).1 =
          HandlerOutcome.response resp) ∨
       (∃ code details,
          (TemplateServiceRepo.HealthCheck {} [] 0 (some "db down") none).1 =
            HandlerOutcome.abort code details)) := by
  refine ⟨rfl, ?_⟩
  rintro (⟨resp, h⟩ | ⟨code, details, h⟩) <;>
    simp [TemplateServiceRepo.HealthCheck] at h

/-- C7 (amended): an exception raised inside the try block — the
repository `create` call — is converted into the `NOT_SERVING` response
carrying the error message and never propagates, so on executions where
the pre-validation count call succeeds every repository-backed call ends
in a typed response or an abort; but the count call sits outside the
try/except, so a repository exception there propagates out of the handler
uncaught; the plain variant always returns a typed response, never raising
or aborting. -/
theorem handler_try_block_errors_contained (r : HealthCheckRequest)
    (repo : HealthCheckRepo) (now : Nat) (createErr : Option String)
    (e ce : String) :
    (repo.count < 3 →
      TemplateServiceRepo.HealthCheck r repo now none (some e) =
        (HandlerOutcome.response
          { status := HCStatus.NOT_SERVING,
            message := "Service is unhealthy: " ++ e },
         repo)) ∧
    (∀ err, (TemplateServiceRepo.HealthCheck r repo now none createErr).1 ≠
      HandlerOutcome.raised err) ∧
    (TemplateServiceRepo.HealthCheck r repo now (some ce) createErr =
      (HandlerOutcome.raised ce, repo)) ∧
    (∀ err, TemplateServicePlain.HealthCheck r ≠ HandlerOutcome.raised err) ∧
    (∀ code details,
      TemplateServicePlain.HealthCheck r ≠ HandlerOutcome.abort code details) := by
  refine ⟨?_, ?_, ?_, ?_, ?_⟩
  · intro h
    have hge : ¬ ((repo.count : Int) ≥ 3) := by omega
    simp [TemplateServiceRepo.HealthCheck, validate_less_than, hge]
  · intro err
    by_cases hge : ((repo.count : Int) ≥ 3)
    · simp [TemplateServiceRepo.HealthCheck, validate_less_than, hge]
    · cases createErr <;>
        simp [TemplateServiceRepo.HealthCheck, validate_less_than, hge]
  · simp [TemplateServiceRepo.HealthCheck]
  · intro err
    simp [TemplateServicePlain.HealthCheck]
  · intro code details
    simp [TemplateServicePlain.HealthCheck]

/-- C7 (witness): on an empty repository a concrete `create` failure is
converted into the `NOT_SERVING` response with the error message and the
repository stays empty, while a concrete count failure propagates as an
uncaught exception. -/
theorem handler_try_block_errors_contained_witness :
    TemplateServiceRepo.HealthCheck {} [] 0 none (some "boom") =
      (HandlerOutcome.response
        { status := HCStatus.NOT_SERVING,
          message := "Service is unhealthy: " ++ "boom" },
       ([] : HealthCheckRepo)) ∧
    (∀ err, (TemplateServiceRepo.HealthCheck {} [] 0 none none).1 ≠
      HandlerOutcome.raised err) ∧
    TemplateServiceRepo.HealthCheck {} [] 0 (some "io error") none =
      (HandlerOutcome.raised "io error", ([] : HealthCheckRepo)) :=
  ⟨(handler_try_block_errors_contained {} [] 0 none "boom" "io error").1
     (by decide),
   (handler_try_block_errors_contained {} [] 0 none "boom" "io error").2.1,
   (handler_try_block_errors_contained {} [] 0 none "boom" "io error").2.2.1⟩

/-- C8 (confirmed): the plain handler variant answers every request with
the `SERVING` status and the message that the service is healthy. -/
theorem plain_health_check_always_serving (r : HealthCheckRequest) :
    TemplateServicePlain.HealthCheck r =
      HandlerOutcome.response
        { status := HCStatus.SERVING, message := "Service is healthy" } :=
  rfl

/-- C9 (confirmed): with no environment variables set, the server settings
default to host 0.0.0.0, port 50051, 10 workers and a 30 second grace
period, and the logging settings default to level INFO and json format;
the groups are bound under the SERVER_ and LOGGING_ variable name
prefixes, which do override the defaults. -/
theorem config_env_defaults :
    ServerConfig.fromEnv [] =
      Except.ok { host := "0.0.0.0", port := 50051, max_workers := 10,
                  grace_period := 30 } ∧
    LoggingConfig.fromEnv [] = { level := "INFO", format := "json" } ∧
    ServerConfig.envGroup = "SERVER_" ∧
    LoggingConfig.envGroup = "LOGGING_" ∧
    ServerConfig.fromEnv [(ServerConfig.envGroup ++ "PORT", "8080")] =
      Except.ok { host := "0.0.0.0", port := 8080, max_workers := 10,
                  grace_period := 30 } ∧
    LoggingConfig.fromEnv
        [(LoggingConfig.envGroup ++ "LEVEL", "DEBUG"),
         (LoggingConfig.envGroup ++ "FORMAT", "console")] =
      { level := "DEBUG", format := "console" } :=
  ⟨rfl, rfl, rfl, rfl, rfl, rfl⟩

/-- C10 (confirmed): a `stop()` call made while the server reference is
still unset returns immediately and changes nothing, neither setting the
shutdown event nor requesting a drain, and a subsequent `start()` that
binds still parks at the event wait: no resume step of `start()` is
possible from there. -/
theorem stop_before_start_is_noop (cfg : ServerConfig) (s : GrpcServerState)
    (w : WorldEffects) (hs : s.server = none) :
    GrpcServer.stop cfg s w = (s, w) ∧
    (s.shutdown_event = false →
      ∀ sys2, ¬ SysStep cfg
        ⟨Phase.waiting,
          (GrpcServer.startPhaseA cfg true s w).2.1,
          (GrpcServer.startPhaseA cfg true s w).2.2⟩
        Act.startStep sys2) := by
  constructor
  · simp [GrpcServer.stop, hs]
  · intro hev sys2 hstep
    cases hstep with
    | wake hw =>
      simp [GrpcServer.startPhaseA, hev] at hw

/-- C10 (witness): on a freshly initialized instance, `stop()` leaves the
state and effects unchanged and the subsequent bound `start()` has no
resume step. -/
theorem stop_before_start_is_noop_witness :
    GrpcServer.stop cfg0 {} {} = ({}, {}) ∧
    (∀ sys2, ¬ SysStep cfg0
      ⟨Phase.waiting,
        (GrpcServer.startPhaseA cfg0 true {} {}).2.1,
        (GrpcServer.startPhaseA cfg0 true {} {}).2.2⟩
      Act.startStep sys2) :=
  ⟨(stop_before_start_is_noop cfg0 {} {} rfl).1,
   fun sys2 => (stop_before_start_is_noop cfg0 {} {} rfl).2 rfl sys2⟩

end PyMicro
